import Mathlib

/-!
Verification of the live aggregation and workflow-continuity engine of
ocmonitor (src/ocmonitor/services/live_monitor.py).

Shallow embedding conventions:
* timestamps (Python `datetime`) are rational numbers of seconds since the
  epoch; SQLite `created` fields are integer milliseconds since the epoch,
  exactly as stored;
* Python `Decimal`/`float` arithmetic on token counts and rates is embedded
  in `ℚ` (the accumulations under study are exact);
* `Optional[T]` becomes `Option T`; Python truthiness tests on optional
  numbers (`if x:`) are embedded as "present and nonzero";
* Python `set` values become `Finset String`.
-/

namespace OCMonitor

/-- Token counts of one interaction (`TokenUsage` in models/session.py,
consumed read-only by live_monitor.py). -/
structure TokenUsage where
  input : ℕ
  output : ℕ
  cache_write : ℕ
  cache_read : ℕ
deriving Repr, DecidableEq

/-- Timing sub-record of an interaction: optional creation timestamp in
milliseconds since the epoch (SQLite path) and optional duration in
milliseconds. -/
structure TimeData where
  created : Option ℤ
  duration_ms : Option ℕ
deriving Repr, DecidableEq

/-- One interaction record (`InteractionFile`): identifier, owning session,
model identifier, token counts, optional timing data, and the last-modified
timestamp (seconds) used for recency ordering on the file-based path. -/
structure InteractionFile where
  file_name : String
  session_id : String
  model_id : String
  tokens : TokenUsage
  time_data : Option TimeData
  modification_time : ℚ
deriving Repr, DecidableEq

/-- One session (`SessionData`): id, optional parent id, ordered interaction
records, and derived optional start/end timestamps (seconds). -/
structure SessionData where
  session_id : String
  parent_id : Option String
  files : List InteractionFile
  start_time : Option ℚ
  end_time : Option ℚ
deriving Repr, DecidableEq

/-- Per-model rate-table entry (`ModelPricing` in config.py): per-token rates,
context window size, optional session quota. -/
structure ModelPricing where
  input_rate : ℚ
  output_rate : ℚ
  cache_write_rate : ℚ
  cache_read_rate : ℚ
  context_window : ℕ
  session_quota : Option ℚ
deriving Repr, DecidableEq

/-- The pricing table `pricing_data`: a lookup from model identifier to its
pricing entry (`model_id in self.pricing_data` becomes `≠ none`). -/
def Pricing : Type := String → Option ModelPricing

/-- Result dictionary of `LiveMonitor._calculate_context_usage`. -/
structure ContextUsage where
  context_size : ℕ
  context_window : ℕ
  usage_percentage : ℚ
deriving Repr, DecidableEq

/-- `LiveMonitor._calculate_context_usage` (live_monitor.py lines 425-457):
unknown model returns the fixed dictionary
\x7bcontext_size: 0, context_window: 200000, usage_percentage: 0.0\x7d;
known model returns context_size = input + cache_read + cache_write and
usage_percentage = min(100, context_size / context_window * 100), with the
percentage forced to 0 when context_window = 0. -/
def calculate_context_usage (pricing : Pricing) (f : InteractionFile) : ContextUsage :=
  match pricing f.model_id with
  | none => ⟨0, 200000, 0⟩
  | some mp =>
    let context_size := f.tokens.input + f.tokens.cache_read + f.tokens.cache_write
    let usage_percentage : ℚ :=
      if 0 < mp.context_window then ((context_size : ℚ) / (mp.context_window : ℚ)) * 100 else 0
    ⟨context_size, mp.context_window, min 100 usage_percentage⟩

/-- A pricing table with no entries at all, used for concrete evaluations. -/
def emptyPricing : Pricing := fun _ => none

/-- A concrete interaction with input=1000, cache_read=500, cache_write=0,
under model id "m". -/
def exampleInteraction : InteractionFile :=
  { file_name := "f0"
    session_id := "s0"
    model_id := "m"
    tokens := { input := 1000, output := 0, cache_write := 0, cache_read := 500 }
    time_data := none
    modification_time := 0 }

/-- A concrete pricing table mapping model "m" to context_window 2000. -/
def examplePricing : Pricing := fun id =>
  if id = "m" then
    some { input_rate := 3, output_rate := 15, cache_write_rate := 4,
           cache_read_rate := 1, context_window := 2000, session_quota := none }
  else none

/-- C5: for an interaction whose model id is present in the pricing table with
a positive context window, the context usage is
context_size = input + cache_read + cache_write and
usage_percentage = min(100, context_size / context_window * 100). -/
theorem context_usage_known_model (pricing : Pricing) (f : InteractionFile)
    (mp : ModelPricing) (hmp : pricing f.model_id = some mp)
    (hcw : 0 < mp.context_window) :
    calculate_context_usage pricing f =
      ⟨f.tokens.input + f.tokens.cache_read + f.tokens.cache_write, mp.context_window,
        min 100 (((f.tokens.input + f.tokens.cache_read + f.tokens.cache_write : ℕ) : ℚ)
          / (mp.context_window : ℚ) * 100)⟩ := by
  unfold calculate_context_usage
  rw [hmp]
  simp [hcw]

/-- C5 witness: input=1000, cache_read=500, cache_write=0 with
context_window=2000 yields usage_percentage = 75. -/
theorem context_usage_known_model_witness :
    examplePricing exampleInteraction.model_id =
      some { input_rate := 3, output_rate := 15, cache_write_rate := 4,
             cache_read_rate := 1, context_window := 2000, session_quota := none } ∧
    (calculate_context_usage examplePricing exampleInteraction).usage_percentage = 75 := by
  constructor
  · decide
  · rw [context_usage_known_model examplePricing exampleInteraction
      { input_rate := 3, output_rate := 15, cache_write_rate := 4,
        cache_read_rate := 1, context_window := 2000, session_quota := none }
      (by decide) (by decide)]
    norm_num [exampleInteraction]

/-- C4 counterexample: with an unknown model and input=1000, cache_read=500,
cache_write=0, the code returns context_size 0 and usage_percentage 0, not
context_size 1500 and percentage 1500/200000*100 as the claim states. -/
theorem context_usage_unknown_model_counterexample :
    calculate_context_usage emptyPricing exampleInteraction =
      ⟨0, 200000, 0⟩ ∧
    ¬ ((calculate_context_usage emptyPricing exampleInteraction).context_size = 1500 ∧
       (calculate_context_usage emptyPricing exampleInteraction).usage_percentage
         = 1500 / 200000 * 100) := by
  constructor
  · rfl
  · intro h
    have h1 := h.1
    rw [show calculate_context_usage emptyPricing exampleInteraction = ⟨0, 200000, 0⟩ from rfl] at h1
    exact absurd h1 (by decide)

/-- C4 (amended): for an interaction whose model id is not in the pricing
table, the computation degrades rather than fails, returning the fixed
result context_size = 0, context_window = 200000, usage_percentage = 0. -/
theorem context_usage_unknown_model (pricing : Pricing) (f : InteractionFile)
    (h : pricing f.model_id = none) :
    calculate_context_usage pricing f = ⟨0, 200000, 0⟩ := by
  unfold calculate_context_usage
  rw [h]

/-- C4 witness: the amended degradation at a concrete unknown-model input. -/
theorem context_usage_unknown_model_witness :
    emptyPricing exampleInteraction.model_id = none ∧
    calculate_context_usage emptyPricing exampleInteraction = ⟨0, 200000, 0⟩ := by
  exact ⟨rfl, context_usage_unknown_model emptyPricing exampleInteraction rfl⟩

/-- Modelled from the spec: the `SessionWorkflow` record produced by the
workflow grouper (models/workflow.py and session_grouper.py are not under
src/). A workflow is a main session plus its ordered sub-agent sessions. -/
structure SessionWorkflow where
  main_session : SessionData
  sub_agents : List SessionData
deriving Repr, DecidableEq

/-- Modelled from the spec: all_sessions = [main] ++ sub_agents. -/
def SessionWorkflow.all_sessions (w : SessionWorkflow) : List SessionData :=
  w.main_session :: w.sub_agents

/-- Modelled from the spec: workflow_id = main_session.id. -/
def SessionWorkflow.workflow_id (w : SessionWorkflow) : String :=
  w.main_session.session_id

/-- The workflow dictionary returned by SQLiteProcessor.get_most_recent_workflow
(sqlite_utils is not under src/), restricted to the fields live_monitor.py
branches on; display-only fields (project_name, counts, titles) are omitted. -/
structure WorkflowDict where
  workflow_id : String
  main_session : SessionData
  sub_agents : List SessionData
  all_sessions : List SessionData
deriving Repr, DecidableEq

/-- Concatenation of the interaction lists of a list of sessions, as built by
the `all_files` accumulation loops in live_monitor.py. -/
def allFiles (sessions : List SessionData) : List InteractionFile :=
  (sessions.map (fun s => s.files)).flatten

/-- Contribution of one interaction to the duration sum: the Python guard
`if f.time_data and f.time_data.duration_ms` skips a missing or zero
duration (zero by truthiness, which contributes nothing either way). -/
def durationContribution (f : InteractionFile) : ℕ :=
  match f.time_data with
  | none => 0
  | some td =>
    match td.duration_ms with
    | none => 0
    | some d => if d = 0 then 0 else d

/-- Sum of recorded durations (milliseconds) over a list of interactions. -/
def total_duration_ms (files : List InteractionFile) : ℕ :=
  (files.map durationContribution).sum

/-- Sum of output tokens over a list of interactions. -/
def total_output_tokens (files : List InteractionFile) : ℕ :=
  (files.map (fun f => f.tokens.output)).sum

/-- `LiveMonitor._calculate_workflow_output_rate` (live_monitor.py lines
240-287), with the implicit `datetime.now()` made an explicit `now`
parameter (seconds). -/
def calculate_workflow_output_rate (w : SessionWorkflow) (now : ℚ) : ℚ :=
  let all_files := allFiles w.all_sessions
  if all_files.isEmpty then 0
  else
    let cutoff_time := now - 300
    let recent_interactions :=
      all_files.filter (fun f => decide (cutoff_time ≤ f.modification_time))
    if recent_interactions.isEmpty then 0
    else if total_output_tokens recent_interactions = 0 then 0
    else
      let total_duration_seconds : ℚ := (total_duration_ms recent_interactions : ℚ) / 1000
      if 0 < total_duration_seconds then
        (total_output_tokens recent_interactions : ℚ) / total_duration_seconds
      else 0

/-- `LiveMonitor._calculate_output_rate` (live_monitor.py lines 289-332), the
single-session variant, with `datetime.now()` made an explicit parameter. -/
def calculate_output_rate (s : SessionData) (now : ℚ) : ℚ :=
  if s.files.isEmpty then 0
  else
    let cutoff_time := now - 300
    let recent_interactions :=
      s.files.filter (fun f => decide (cutoff_time ≤ f.modification_time))
    if recent_interactions.isEmpty then 0
    else if total_output_tokens recent_interactions = 0 then 0
    else
      let total_duration_seconds : ℚ := (total_duration_ms recent_interactions : ℚ) / 1000
      if 0 < total_duration_seconds then
        (total_output_tokens recent_interactions : ℚ) / total_duration_seconds
      else 0

/-- The SQLite-path window test: the Python guard
`if f.time_data and f.time_data.created` (truthiness excludes a missing or
zero created stamp) followed by
`datetime.fromtimestamp(created / 1000) >= cutoff_time`. -/
def sqliteRecent (cutoff_time : ℚ) (f : InteractionFile) : Bool :=
  match f.time_data with
  | none => false
  | some td =>
    match td.created with
    | none => false
    | some c => decide (c ≠ 0) && decide (cutoff_time ≤ (c : ℚ) / 1000)

/-- The creation stamp (milliseconds) of an interaction, when its timing
record carries one. -/
def sqliteCreated (f : InteractionFile) : Option ℤ :=
  match f.time_data with
  | none => none
  | some td => td.created

/-- The SQLite window test rephrased through `sqliteCreated`. -/
theorem sqliteRecent_eq (cutoff : ℚ) (f : InteractionFile) :
    sqliteRecent cutoff f =
      (match sqliteCreated f with
       | none => false
       | some c => decide (c ≠ 0) && decide (cutoff ≤ (c : ℚ) / 1000)) := by
  rcases f with ⟨_, _, _, _, td, _⟩
  cases td with
  | none => rfl
  | some t =>
    rcases t with ⟨cr, dur⟩
    cases cr <;> rfl

/-- `LiveMonitor._calculate_sqlite_workflow_output_rate` (live_monitor.py
lines 576-625), with `datetime.now()` made an explicit parameter. -/
def calculate_sqlite_workflow_output_rate (w : WorkflowDict) (now : ℚ) : ℚ :=
  let all_files := allFiles w.all_sessions
  if all_files.isEmpty then 0
  else
    let cutoff_time := now - 300
    let recent_interactions := all_files.filter (sqliteRecent cutoff_time)
    if recent_interactions.isEmpty then 0
    else if total_output_tokens recent_interactions = 0 then 0
    else
      let total_duration_seconds : ℚ := (total_duration_ms recent_interactions : ℚ) / 1000
      if 0 < total_duration_seconds then
        (total_output_tokens recent_interactions : ℚ) / total_duration_seconds
      else 0

/-- C10: the workflow burn-rate function applied to a workflow whose session
list is exactly [s] returns the same value as the single-session burn-rate
function applied to s. -/
theorem workflow_rate_refines_session_rate (s : SessionData) (now : ℚ) :
    calculate_workflow_output_rate ⟨s, []⟩ now = calculate_output_rate s now := by
  have h : allFiles (SessionWorkflow.mk s []).all_sessions = s.files := by
    simp [allFiles, SessionWorkflow.all_sessions]
  unfold calculate_workflow_output_rate calculate_output_rate
  rw [h]

/-- The tail of the burn-rate computation: once the in-window interactions are
fixed, the code's guard chain (empty, zero output, positive duration) produces
the same value as the case split of the specification (empty, zero total
duration, quotient). -/
theorem rate_if_chain (files : List InteractionFile) :
    (if files.isEmpty then (0 : ℚ)
     else if total_output_tokens files = 0 then 0
     else if 0 < (total_duration_ms files : ℚ) / 1000 then
       (total_output_tokens files : ℚ) / ((total_duration_ms files : ℚ) / 1000)
     else 0)
    = (if files.isEmpty then 0
       else if total_duration_ms files = 0 then 0
       else (total_output_tokens files : ℚ) / ((total_duration_ms files : ℚ) / 1000)) := by
  by_cases h1 : files.isEmpty
  · simp [h1]
  · simp only [h1, if_false]
    by_cases h2 : total_output_tokens files = 0
    · by_cases h3 : total_duration_ms files = 0 <;> simp [h2, h3]
    · simp only [h2, if_false]
      by_cases h3 : total_duration_ms files = 0
      · simp [h3]
      · have hq : (0 : ℚ) < (total_duration_ms files : ℚ) := by
          exact_mod_cast Nat.pos_of_ne_zero h3
        have hpos : (0 : ℚ) < (total_duration_ms files : ℚ) / 1000 := by positivity
        simp [h3, hpos]

/-- C3: the burn rate equals the sum of output tokens of the interactions
whose last-modified (file path) or creation (database path) timestamp lies
within the trailing 5-minute window ending at now, divided by the sum of
their recorded durations in seconds; it is 0 when the window is empty and 0
when the total in-window duration is zero. Stated for a snapshot read after
the first five minutes of the epoch whose timestamps do not postdate now. -/
theorem burn_rate_matches_spec (w : SessionWorkflow) (wd : WorkflowDict) (now : ℚ)
    (hfile : ∀ f ∈ allFiles w.all_sessions, f.modification_time ≤ now)
    (hnow : 300 < now)
    (hsql : ∀ f ∈ allFiles wd.all_sessions, ∀ c, sqliteCreated f = some c →
      (c : ℚ) / 1000 ≤ now) :
    (calculate_workflow_output_rate w now =
      (let window := (allFiles w.all_sessions).filter
          (fun f => decide (now - 300 ≤ f.modification_time ∧ f.modification_time ≤ now))
       if window.isEmpty then 0
       else if total_duration_ms window = 0 then 0
       else (total_output_tokens window : ℚ) / ((total_duration_ms window : ℚ) / 1000)))
    ∧ (calculate_sqlite_workflow_output_rate wd now =
      (let window := (allFiles wd.all_sessions).filter
          (fun f => match sqliteCreated f with
            | none => false
            | some c => decide (now - 300 ≤ (c : ℚ) / 1000 ∧ (c : ℚ) / 1000 ≤ now))
       if window.isEmpty then 0
       else if total_duration_ms window = 0 then 0
       else (total_output_tokens window : ℚ) / ((total_duration_ms window : ℚ) / 1000))) := by
  constructor
  · have hfilter : (allFiles w.all_sessions).filter
        (fun f => decide (now - 300 ≤ f.modification_time ∧ f.modification_time ≤ now))
        = (allFiles w.all_sessions).filter
          (fun f => decide (now - 300 ≤ f.modification_time)) := by
      apply List.filter_congr
      intro f hf
      exact decide_eq_decide.mpr (and_iff_left (hfile f hf))
    simp only [calculate_workflow_output_rate]
    rw [hfilter]
    by_cases hemp : (allFiles w.all_sessions).isEmpty
    · have hnil : allFiles w.all_sessions = [] := List.isEmpty_iff.mp hemp
      simp [hnil]
    · rw [if_neg hemp]
      exact rate_if_chain _
  · have hfilter : (allFiles wd.all_sessions).filter
        (fun f => match sqliteCreated f with
          | none => false
          | some c => decide (now - 300 ≤ (c : ℚ) / 1000 ∧ (c : ℚ) / 1000 ≤ now))
        = (allFiles wd.all_sessions).filter (sqliteRecent (now - 300)) := by
      apply List.filter_congr
      intro f hf
      rw [sqliteRecent_eq]
      cases hc : sqliteCreated f with
      | none => rfl
      | some c =>
        simp only
        have hle : (c : ℚ) / 1000 ≤ now := hsql f hf c hc
        by_cases hc0 : c = 0
        · subst hc0
          have hlt : ¬ (now - 300 ≤ ((0 : ℤ) : ℚ) / 1000 ∧ ((0 : ℤ) : ℚ) / 1000 ≤ now) := by
            intro hcontra
            have h1 := hcontra.1
            norm_num at h1
            linarith
          have hr : ¬ (now - 300 ≤ ((0 : ℤ) : ℚ) / 1000) := by
            norm_num
            linarith
          simp [hlt, hr]
          intro h
          linarith
        · simp [Bool.decide_and, hle, hc0]
    simp only [calculate_sqlite_workflow_output_rate]
    rw [hfilter]
    by_cases hemp : (allFiles wd.all_sessions).isEmpty
    · have hnil : allFiles wd.all_sessions = [] := List.isEmpty_iff.mp hemp
      simp [hnil]
    · rw [if_neg hemp]
      exact rate_if_chain _

/-- A concrete interaction with 100 output tokens and 2000 ms duration, last
modified at t = 1000 s. -/
def burnFile : InteractionFile :=
  { file_name := "b0"
    session_id := "sB"
    model_id := "m"
    tokens := { input := 0, output := 100, cache_write := 0, cache_read := 0 }
    time_data := some { created := none, duration_ms := some 2000 }
    modification_time := 1000 }

/-- The session holding `burnFile`. -/
def burnSession : SessionData :=
  { session_id := "sB", parent_id := none, files := [burnFile]
    start_time := some 1000, end_time := some 1000 }

/-- A single-session workflow around `burnSession`. -/
def burnWorkflow : SessionWorkflow :=
  { main_session := burnSession, sub_agents := [] }

/-- The SQLite twin of `burnFile`: created at 1,000,000 ms (t = 1000 s). -/
def burnSqliteFile : InteractionFile :=
  { file_name := "b1"
    session_id := "sC"
    model_id := "m"
    tokens := { input := 0, output := 100, cache_write := 0, cache_read := 0 }
    time_data := some { created := some 1000000, duration_ms := some 2000 }
    modification_time := 0 }

/-- The session holding `burnSqliteFile`. -/
def burnSqliteSession : SessionData :=
  { session_id := "sC", parent_id := none, files := [burnSqliteFile]
    start_time := some 1000, end_time := some 1000 }

/-- A single-session SQLite workflow dictionary around `burnSqliteSession`. -/
def burnWorkflowDict : WorkflowDict :=
  { workflow_id := "sC", main_session := burnSqliteSession, sub_agents := []
    all_sessions := [burnSqliteSession] }

/-- C3 witness: one in-window interaction with 100 output tokens and 2000 ms
duration yields a burn rate of 50 tokens per second on both paths. -/
theorem burn_rate_matches_spec_witness :
    calculate_workflow_output_rate burnWorkflow 1000 = 50 ∧
    calculate_sqlite_workflow_output_rate burnWorkflowDict 1000 = 50 := by
  have h := burn_rate_matches_spec burnWorkflow burnWorkflowDict 1000
    (by decide) (by norm_num)
    (by
      intro f hf c hc
      simp [allFiles, burnWorkflowDict, burnSqliteSession] at hf
      subst hf
      simp [sqliteCreated, burnSqliteFile] at hc
      subst hc
      norm_num)
  refine ⟨h.1.trans ?_, h.2.trans ?_⟩
  · norm_num [allFiles, burnWorkflow, burnSession, burnFile, SessionWorkflow.all_sessions,
      List.filter_cons, total_duration_ms, total_output_tokens, durationContribution]
  · norm_num [allFiles, burnWorkflowDict, burnSqliteSession, burnSqliteFile, sqliteCreated,
      List.filter_cons, total_duration_ms, total_output_tokens, durationContribution]

/-- Python int() truncation toward zero on a rational number. -/
def pyInt (q : ℚ) : ℤ := if 0 ≤ q then ⌊q⌋ else ⌈q⌉

/-- Modelled from the spec: the per-interaction cost
(InteractionFile.calculate_cost, models/session.py is not under src/):
(input × input_rate + output × output_rate + cache_write × cache_write_rate
+ cache_read × cache_read_rate) / 1,000,000, rates resolved by the
interaction's model id, an unknown model contributing zero; Decimal
arithmetic is embedded in ℚ. -/
def interactionCost (pricing : Pricing) (f : InteractionFile) : ℚ :=
  match pricing f.model_id with
  | none => 0
  | some mp =>
    ((f.tokens.input : ℚ) * mp.input_rate + (f.tokens.output : ℚ) * mp.output_rate
      + (f.tokens.cache_write : ℚ) * mp.cache_write_rate
      + (f.tokens.cache_read : ℚ) * mp.cache_read_rate) / 1000000

/-- Modelled from the spec: SessionData.calculate_total_cost (models/session.py
is not under src/): the decimal sum of the session's per-interaction costs. -/
def session_calculate_total_cost (pricing : Pricing) (s : SessionData) : ℚ :=
  (s.files.map (interactionCost pricing)).sum

/-- `WorkflowWrapper.calculate_total_cost` (live_monitor.py lines 71-77):
total starts at Decimal zero and accumulates each member session's decimal
cost over all_sessions. -/
def wrapper_calculate_total_cost (pricing : Pricing) (w : WorkflowDict) : ℚ :=
  w.all_sessions.foldl (fun total s => total + session_calculate_total_cost pricing s) 0

/-- Folding cost addition from an accumulator equals the accumulator plus the
exact sum. -/
theorem cost_foldl_eq (pricing : Pricing) (l : List SessionData) (a : ℚ) :
    l.foldl (fun total s => total + session_calculate_total_cost pricing s) a
      = a + (l.map (session_calculate_total_cost pricing)).sum := by
  induction l generalizing a with
  | nil => simp
  | cons s rest ih => simp [ih, add_assoc]

/-- C7: WorkflowWrapper.calculate_total_cost starts from zero and accumulates
each member session's cost with exact (decimal) addition, returning exactly
the sum of the session costs over all_sessions. -/
theorem wrapper_total_cost_is_sum (pricing : Pricing) (w : WorkflowDict) :
    wrapper_calculate_total_cost pricing w
      = (w.all_sessions.map (session_calculate_total_cost pricing)).sum := by
  unfold wrapper_calculate_total_cost
  rw [cost_foldl_eq]
  simp

/-- Python min over a list of timestamps, none when the list is empty. -/
def optMin (l : List ℚ) : Option ℚ :=
  match l with
  | [] => none
  | a :: rest => some (rest.foldl min a)

/-- Python max over a list of timestamps, none when the list is empty. -/
def optMax (l : List ℚ) : Option ℚ :=
  match l with
  | [] => none
  | a :: rest => some (rest.foldl max a)

/-- The start_times list accumulated by WorkflowWrapper.__init__: the present
start times of the member sessions, in order. -/
def wrapperStartTimes (w : WorkflowDict) : List ℚ :=
  w.all_sessions.filterMap (fun s => s.start_time)

/-- The end_times list accumulated by WorkflowWrapper.__init__. -/
def wrapperEndTimes (w : WorkflowDict) : List ℚ :=
  w.all_sessions.filterMap (fun s => s.end_time)

/-- The duration bookkeeping of `WorkflowWrapper.__init__` (live_monitor.py
lines 49-69): start_time = min of present session start times, end_time = max
of present session end times; when both exist,
duration_ms = int((end_time - start_time).total_seconds() * 1000),
duration_hours = duration_ms / 3,600,000 and
duration_percentage = min(100, (duration_hours / 5) * 100); otherwise 0. -/
def wrapper_duration_percentage (w : WorkflowDict) : ℚ :=
  match optMin (wrapperStartTimes w), optMax (wrapperEndTimes w) with
  | some s, some e =>
    let duration_ms : ℤ := pyInt ((e - s) * 1000)
    let duration_hours : ℚ := (duration_ms : ℚ) / 3600000
    min 100 ((duration_hours / 5) * 100)
  | none, _ => 0
  | some _, none => 0

/-- C9: with at least one start and one end time, the duration percentage is
the wall-clock span from earliest start to latest end as a fraction of the
5-hour budget, capped at 100 (stated for spans at the engine's millisecond
granularity); with no start or end time it is 0. -/
theorem duration_percentage_spec (w : WorkflowDict) :
    (∀ s e : ℚ, ∀ k : ℤ, optMin (wrapperStartTimes w) = some s →
      optMax (wrapperEndTimes w) = some e → (e - s) * 1000 = (k : ℚ) →
      wrapper_duration_percentage w = min 100 ((((e - s) / 3600) / 5) * 100))
    ∧ ((optMin (wrapperStartTimes w) = none ∨ optMax (wrapperEndTimes w) = none) →
      wrapper_duration_percentage w = 0) := by
  constructor
  · intro s e k hs he hk
    unfold wrapper_duration_percentage
    rw [hs, he]
    have h1 : pyInt ((e - s) * 1000) = k := by
      rw [hk]
      unfold pyInt
      by_cases h : (0 : ℚ) ≤ (k : ℚ) <;> simp [h, Int.floor_intCast, Int.ceil_intCast]
    simp only [h1]
    have h2 : (k : ℚ) / 3600000 = (e - s) / 3600 := by
      have : (k : ℚ) = (e - s) * 1000 := hk.symm
      rw [this]
      ring
    rw [h2]
  · intro h
    unfold wrapper_duration_percentage
    rcases h with h | h
    · rw [h]
    · rw [h]
      rcases hmin : optMin (wrapperStartTimes w) with _ | v <;> rfl

/-- A session spanning t = 0 s to t = 9000 s (2.5 hours). -/
def durSession : SessionData :=
  { session_id := "sD", parent_id := none, files := []
    start_time := some 0, end_time := some 9000 }

/-- A workflow dictionary whose only member is `durSession`. -/
def durWorkflowDict : WorkflowDict :=
  { workflow_id := "sD", main_session := durSession, sub_agents := []
    all_sessions := [durSession] }

/-- C9 witness: a 2.5-hour workflow occupies 50 percent of the 5-hour
budget. -/
theorem duration_percentage_spec_witness :
    wrapper_duration_percentage durWorkflowDict = 50 := by
  have h := (duration_percentage_spec durWorkflowDict).1 0 9000 9000000
    (by simp [optMin, wrapperStartTimes, durWorkflowDict, durSession])
    (by simp [optMax, wrapperEndTimes, durWorkflowDict, durSession])
    (by norm_num)
  rw [h]
  norm_num

/-- Result of SQLiteProcessor.get_database_stats as read by
validate_monitoring_setup; exists_flag embeds the dictionary's
"exists" entry (sqlite_utils is not under src/). -/
structure DbStats where
  exists_flag : Bool
  session_count : ℕ
  sub_agent_count : ℕ
deriving Repr, DecidableEq

/-- The collaborators probed by validate_monitoring_setup, abstracted as an
environment: SQLiteProcessor.find_database_path and get_database_stats,
opencode_storage_path("message"), directory existence, and
FileProcessor.find_session_directories (none of these modules are under
src/). -/
structure MonitorEnv where
  db_path : Option String
  db_stats : DbStats
  default_base_path : Option String
  path_is_dir : String → Bool
  session_dir_count : String → ℕ
  pricing_empty : Bool

/-- One source's entry in the validation info dictionary. -/
structure SourceInfo where
  available : Bool
  sessions : ℕ
deriving Repr, DecidableEq

/-- The dictionary returned by validate_monitoring_setup. -/
structure ValidationResult where
  valid : Bool
  issues : List String
  warnings : List String
  sqlite_info : SourceInfo
  files_info : SourceInfo
deriving Repr, DecidableEq

/-- The info['sqlite'] entry: set to available when the database is found and
its stats read, set to unavailable when no database path is found, and left
unset (none) when the path is found but the stats cannot be read, in which
case only a warning is recorded. -/
def sqliteInfoOf (env : MonitorEnv) : Option SourceInfo :=
  match env.db_path with
  | some _ =>
    if env.db_stats.exists_flag then some ⟨true, env.db_stats.session_count⟩ else none
  | none => some ⟨false, 0⟩

/-- The info['files'] entry: base_path falls back to the default storage path;
the source is available when the resulting path exists as a directory. -/
def filesInfoOf (env : MonitorEnv) (base_path : Option String) : SourceInfo :=
  match (match base_path with | some p => some p | none => env.default_base_path) with
  | some p => if env.path_is_dir p then ⟨true, env.session_dir_count p⟩ else ⟨false, 0⟩
  | none => ⟨false, 0⟩

/-- The warnings list: a stats-read warning and a missing-pricing warning. -/
def warningsOf (env : MonitorEnv) : List String :=
  (match env.db_path with
   | some _ =>
     if env.db_stats.exists_flag then [] else ["SQLite database found but cannot read stats"]
   | none => [])
  ++ (if env.pricing_empty then ["No pricing data available - costs will show as $0.00"] else [])

/-- `LiveMonitor.validate_monitoring_setup` (live_monitor.py lines 627-688).
The final availability check reads info['sqlite']['available']; in the branch
where info['sqlite'] was never set (database path found but stats unreadable)
that read raises a KeyError, modelled as Except.error. -/
def validate_monitoring_setup (env : MonitorEnv) (base_path : Option String) :
    Except String ValidationResult :=
  match sqliteInfoOf env with
  | none => .error "KeyError: sqlite"
  | some si =>
    let fi := filesInfoOf env base_path
    let issues : List String :=
      if !si.available && !fi.available then
        ["No session data source found. Expected SQLite database or file storage."]
      else []
    .ok ⟨issues.isEmpty, issues, warningsOf env, si, fi⟩

/-- C8: for a missing or readable store (the scope of the claim: the database
path is absent, or its stats are readable), validate_monitoring_setup returns
a structured result rather than raising; the result is invalid exactly when
neither source is available, carries the human-readable issue in that case,
and has an empty issue list whenever some source is available. -/
theorem validate_monitoring_setup_structured (env : MonitorEnv) (bp : Option String)
    (h : env.db_path = none ∨ env.db_stats.exists_flag = true) :
    ∃ r : ValidationResult, validate_monitoring_setup env bp = Except.ok r ∧
      (r.valid = false ↔ (r.sqlite_info.available = false ∧ r.files_info.available = false)) ∧
      (r.valid = false →
        "No session data source found. Expected SQLite database or file storage." ∈ r.issues) ∧
      (r.valid = true → r.issues = []) := by
  have hsi : ∃ si : SourceInfo, sqliteInfoOf env = some si := by
    unfold sqliteInfoOf
    rcases hdb : env.db_path with _ | p
    · exact ⟨⟨false, 0⟩, rfl⟩
    · rcases h with h | h
      · rw [hdb] at h
        exact absurd h (by simp)
      · simp [h]
  rcases hsi with ⟨si, hsi⟩
  unfold validate_monitoring_setup
  rw [hsi]
  by_cases hcond : (!si.available && !(filesInfoOf env bp).available) = true
  · refine ⟨_, rfl, ?_, ?_, ?_⟩
    · simp only [hcond, if_true]
      have hcond' := hcond
      rw [Bool.and_eq_true] at hcond'
      rcases hcond' with ⟨h1, h2⟩
      simp [Bool.not_eq_true'] at h1 h2
      simp [h1, h2]
    · intro _
      simp [hcond]
    · intro hv
      simp [hcond] at hv
  · refine ⟨_, rfl, ?_, ?_, ?_⟩
    · simp only [hcond, if_false]
      constructor
      · intro hv
        simp at hv
      · intro ⟨h1, h2⟩
        exact absurd (by simp [h1, h2] : (!si.available && !(filesInfoOf env bp).available) = true)
          hcond
    · intro hv
      simp [hcond] at hv
    · intro _
      simp [hcond]

/-- An environment in which neither the database nor the file storage
exists. -/
def emptyEnv : MonitorEnv :=
  { db_path := none
    db_stats := { exists_flag := false, session_count := 0, sub_agent_count := 0 }
    default_base_path := none
    path_is_dir := fun _ => false
    session_dir_count := fun _ => 0
    pricing_empty := true }

/-- C8 witness: with no data source at all, validation returns a structured
invalid result containing the no-source issue. -/
theorem validate_monitoring_setup_structured_witness :
    ∃ r : ValidationResult, validate_monitoring_setup emptyEnv none = Except.ok r ∧
      (r.valid = false ↔ (r.sqlite_info.available = false ∧ r.files_info.available = false)) ∧
      (r.valid = false →
        "No session data source found. Expected SQLite database or file storage." ∈ r.issues) ∧
      (r.valid = true → r.issues = []) :=
  validate_monitoring_setup_structured emptyEnv none (Or.inl rfl)

/-- The tracked session-id set: set(s.session_id for s in all_sessions). -/
def sessionIds (sessions : List SessionData) : Finset String :=
  (sessions.map (fun s => s.session_id)).toFinset

/-- Poll-loop state of `LiveMonitor.start_monitoring`: the currently tracked
workflow object and the tracked session-id set. -/
structure TrackState where
  current : SessionWorkflow
  tracked : Finset String
deriving DecidableEq

/-- Outcome of one tick of the file-based loop: the updated tracked state,
the advisory signals printed on that tick (the new-workflow advisory carries
the new main session id; the sub-agent advisories carry the set of newly seen
session ids — Python set iteration order is unspecified), and the workflow
whose dashboard is regenerated and republished at the end of the tick. -/
structure TickResult where
  current : SessionWorkflow
  tracked : Finset String
  new_workflow_signal : Option String
  sub_agent_signals : Finset String
  published : SessionWorkflow
deriving DecidableEq

/-- One iteration of the while-loop body of `LiveMonitor.start_monitoring`
(live_monitor.py lines 130-157): `loaded` is the reloaded, regrouped workflow
list (most recent first); when it is nonempty its head is classified against
the tracked id and session-id set; in every branch the tick ends by
regenerating and republishing the dashboard of the resulting current
workflow. -/
def tick (st : TrackState) (loaded : List SessionWorkflow) : TickResult :=
  match loaded with
  | [] => ⟨st.current, st.tracked, none, ∅, st.current⟩
  | new_workflow :: _ =>
    if new_workflow.workflow_id ≠ st.current.workflow_id then
      if new_workflow.main_session.session_id ∉ st.tracked then
        ⟨new_workflow, sessionIds new_workflow.all_sessions,
          some new_workflow.main_session.session_id, ∅, new_workflow⟩
      else
        ⟨st.current, st.tracked, none, ∅, st.current⟩
    else
      let new_ids := sessionIds new_workflow.all_sessions
      let new_subs := new_ids \ st.tracked
      if new_subs ≠ ∅ then
        ⟨new_workflow, new_ids, none, new_subs, new_workflow⟩
      else
        ⟨new_workflow, st.tracked, none, ∅, new_workflow⟩

/-- Poll-loop state of `LiveMonitor.start_sqlite_workflow_monitoring`: the
workflow dictionary, the tracked workflow id, and the tracked session ids. -/
structure SqliteTrackState where
  workflow : WorkflowDict
  current_workflow_id : String
  tracked : Finset String
deriving DecidableEq

/-- Outcome of one tick of the SQLite loop, mirroring `TickResult`. -/
structure SqliteTickResult where
  workflow : WorkflowDict
  current_workflow_id : String
  tracked : Finset String
  new_workflow_signal : Option String
  sub_agent_signals : Finset String
  published : WorkflowDict
deriving DecidableEq

/-- One iteration of the while-loop body of
`LiveMonitor.start_sqlite_workflow_monitoring` (live_monitor.py lines
496-524): `loaded` is the freshly fetched most-recent workflow, when any. -/
def sqliteTick (st : SqliteTrackState) (loaded : Option WorkflowDict) : SqliteTickResult :=
  match loaded with
  | none => ⟨st.workflow, st.current_workflow_id, st.tracked, none, ∅, st.workflow⟩
  | some new_workflow =>
    if new_workflow.workflow_id ≠ st.current_workflow_id then
      if new_workflow.workflow_id ∉ st.tracked then
        ⟨new_workflow, new_workflow.workflow_id, sessionIds new_workflow.all_sessions,
          some new_workflow.workflow_id, ∅, new_workflow⟩
      else
        ⟨st.workflow, st.current_workflow_id, st.tracked, none, ∅, st.workflow⟩
    else
      let new_ids := sessionIds new_workflow.all_sessions
      let new_subs := new_ids \ st.tracked
      if new_subs ≠ ∅ then
        ⟨new_workflow, st.current_workflow_id, new_ids, none, new_subs, new_workflow⟩
      else
        ⟨new_workflow, st.current_workflow_id, st.tracked, none, ∅, new_workflow⟩

/-- C2: when the most recent workflow's id differs from the tracked id but is
already a member of the tracked session-id set, no transition fires on either
loop: state is unchanged and no advisory is signaled. -/
theorem flapping_guard (st : TrackState) (sst : SqliteTrackState)
    (nw : SessionWorkflow) (nd : WorkflowDict) (rest : List SessionWorkflow)
    (h1 : nw.workflow_id ≠ st.current.workflow_id)
    (h2 : nw.main_session.session_id ∈ st.tracked)
    (h3 : nd.workflow_id ≠ sst.current_workflow_id)
    (h4 : nd.workflow_id ∈ sst.tracked) :
    tick st (nw :: rest) = ⟨st.current, st.tracked, none, ∅, st.current⟩ ∧
    sqliteTick sst (some nd) =
      ⟨sst.workflow, sst.current_workflow_id, sst.tracked, none, ∅, sst.workflow⟩ := by
  constructor
  · show (if nw.workflow_id ≠ st.current.workflow_id then _ else _) = _
    rw [if_pos h1, if_neg (not_not_intro h2)]
  · show (if nd.workflow_id ≠ sst.current_workflow_id then _ else _) = _
    rw [if_pos h3, if_neg (not_not_intro h4)]

/-- A bare main session with id "A". -/
def sessA : SessionData :=
  { session_id := "A", parent_id := none, files := [], start_time := none, end_time := none }

/-- A sub-agent session of "A" with id "B". -/
def sessB : SessionData :=
  { session_id := "B", parent_id := some "A", files := [], start_time := none, end_time := none }

/-- A bare main session with id "C". -/
def sessC : SessionData :=
  { session_id := "C", parent_id := none, files := [], start_time := none, end_time := none }

/-- Workflow A with sub-agent B. -/
def wfAB : SessionWorkflow := { main_session := sessA, sub_agents := [sessB] }

/-- The store's head workflow when sub-agent B is reordered to the front. -/
def nwB : SessionWorkflow := { main_session := sessB, sub_agents := [] }

/-- Workflow A reloaded without its sub-agent record. -/
def nwA : SessionWorkflow := { main_session := sessA, sub_agents := [] }

/-- A genuinely new workflow headed by C. -/
def nwC : SessionWorkflow := { main_session := sessC, sub_agents := [] }

/-- Tracking workflow A with tracked session ids A and B (file path). -/
def stAB : TrackState := { current := wfAB, tracked := sessionIds wfAB.all_sessions }

/-- The SQLite dictionary for workflow A with sub-agent B. -/
def wdAB : WorkflowDict :=
  { workflow_id := "A", main_session := sessA, sub_agents := [sessB]
    all_sessions := [sessA, sessB] }

/-- The SQLite head workflow when sub-agent B is reordered to the front. -/
def ndB : WorkflowDict :=
  { workflow_id := "B", main_session := sessB, sub_agents := [], all_sessions := [sessB] }

/-- Workflow A regrown with a new sub-agent C (SQLite path). -/
def ndAC : WorkflowDict :=
  { workflow_id := "A", main_session := sessA, sub_agents := [sessC]
    all_sessions := [sessA, sessC] }

/-- Tracking workflow A with tracked session ids A and B (SQLite path). -/
def sstAB : SqliteTrackState :=
  { workflow := wdAB, current_workflow_id := "A", tracked := sessionIds wdAB.all_sessions }

/-- C2 witness: the flapping guard at a concrete input — tracking A with ids
\x7bA, B\x7d while the store reorders B to the front changes nothing on either
loop. -/
theorem flapping_guard_witness :
    tick stAB [nwB] = ⟨stAB.current, stAB.tracked, none, ∅, stAB.current⟩ ∧
    sqliteTick sstAB (some ndB) =
      ⟨sstAB.workflow, sstAB.current_workflow_id, sstAB.tracked, none, ∅, sstAB.workflow⟩ :=
  flapping_guard stAB sstAB nwB ndB [] (by decide) (by decide) (by decide) (by decide)

/-- C1 counterexample: with tracked ids \x7bA, B\x7d, a reloaded workflow whose id
still equals the tracked id A but whose session-id set shrank to \x7bA\x7d leaves
the tracked set at \x7bA, B\x7d — it does not become the new workflow's session-id
set, contrary to the claim's unconditional replacement. -/
theorem tracked_set_shrink_counterexample :
    nwA.workflow_id = stAB.current.workflow_id ∧
    (tick stAB [nwA]).tracked ≠ sessionIds nwA.all_sessions := by
  exact ⟨rfl, by decide⟩

/-- C1 (amended): a genuinely new most-recent workflow (different id, id not
tracked) replaces the tracked workflow and session-id set and signals the
new-workflow advisory; with a matching id, exactly the session ids present
now but absent before are signaled as new sub-agents, and the tracked set
becomes the new session-id set when at least one such id exists, remaining
unchanged otherwise. Both loops behave alike. -/
theorem transition_classification (st : TrackState) (sst : SqliteTrackState)
    (nw : SessionWorkflow) (nd : WorkflowDict) (rest : List SessionWorkflow) :
    (nw.workflow_id ≠ st.current.workflow_id →
      nw.main_session.session_id ∉ st.tracked →
      tick st (nw :: rest) = ⟨nw, sessionIds nw.all_sessions,
        some nw.main_session.session_id, ∅, nw⟩)
    ∧ (nw.workflow_id = st.current.workflow_id →
      (tick st (nw :: rest)).sub_agent_signals = sessionIds nw.all_sessions \ st.tracked ∧
      (tick st (nw :: rest)).tracked =
        (if sessionIds nw.all_sessions \ st.tracked = ∅ then st.tracked
         else sessionIds nw.all_sessions) ∧
      (tick st (nw :: rest)).new_workflow_signal = none)
    ∧ (nd.workflow_id ≠ sst.current_workflow_id →
      nd.workflow_id ∉ sst.tracked →
      sqliteTick sst (some nd) = ⟨nd, nd.workflow_id, sessionIds nd.all_sessions,
        some nd.workflow_id, ∅, nd⟩)
    ∧ (nd.workflow_id = sst.current_workflow_id →
      (sqliteTick sst (some nd)).sub_agent_signals = sessionIds nd.all_sessions \ sst.tracked ∧
      (sqliteTick sst (some nd)).tracked =
        (if sessionIds nd.all_sessions \ sst.tracked = ∅ then sst.tracked
         else sessionIds nd.all_sessions) ∧
      (sqliteTick sst (some nd)).new_workflow_signal = none) := by
  refine ⟨?_, ?_, ?_, ?_⟩
  · intro h1 h2
    show (if nw.workflow_id ≠ st.current.workflow_id then _ else _) = _
    rw [if_pos h1, if_pos h2]
  · intro h
    have ht : tick st (nw :: rest) =
        (if sessionIds nw.all_sessions \ st.tracked ≠ ∅ then
          (⟨nw, sessionIds nw.all_sessions, none,
            sessionIds nw.all_sessions \ st.tracked, nw⟩ : TickResult)
        else ⟨nw, st.tracked, none, ∅, nw⟩) := by
      show (if nw.workflow_id ≠ st.current.workflow_id then _ else _) = _
      rw [if_neg (not_not_intro h)]
    rw [ht]
    by_cases hsub : sessionIds nw.all_sessions \ st.tracked = ∅
    · rw [if_neg (not_not_intro hsub)]
      exact ⟨hsub.symm, (if_pos hsub).symm, rfl⟩
    · rw [if_pos hsub]
      exact ⟨rfl, (if_neg hsub).symm, rfl⟩
  · intro h1 h2
    show (if nd.workflow_id ≠ sst.current_workflow_id then _ else _) = _
    rw [if_pos h1, if_pos h2]
  · intro h
    have ht : sqliteTick sst (some nd) =
        (if sessionIds nd.all_sessions \ sst.tracked ≠ ∅ then
          (⟨nd, sst.current_workflow_id, sessionIds nd.all_sessions, none,
            sessionIds nd.all_sessions \ sst.tracked, nd⟩ : SqliteTickResult)
        else ⟨nd, sst.current_workflow_id, sst.tracked, none, ∅, nd⟩) := by
      show (if nd.workflow_id ≠ sst.current_workflow_id then _ else _) = _
      rw [if_neg (not_not_intro h)]
    rw [ht]
    by_cases hsub : sessionIds nd.all_sessions \ sst.tracked = ∅
    · rw [if_neg (not_not_intro hsub)]
      exact ⟨hsub.symm, (if_pos hsub).symm, rfl⟩
    · rw [if_pos hsub]
      exact ⟨rfl, (if_neg hsub).symm, rfl⟩

/-- C1 witness: tracking A with ids \x7bA, B\x7d, a fresh head workflow C is a
genuine transition on the file path, and a reloaded A with added sub-agent C
signals exactly the id C on the SQLite path. -/
theorem transition_classification_witness :
    tick stAB [nwC] = ⟨nwC, sessionIds nwC.all_sessions,
      some nwC.main_session.session_id, ∅, nwC⟩ ∧
    (sqliteTick sstAB (some ndAC)).sub_agent_signals =
      sessionIds ndAC.all_sessions \ sstAB.tracked := by
  have h := transition_classification stAB sstAB nwC ndAC []
  exact ⟨h.1 (by decide) (by decide), (h.2.2.2 rfl).1⟩

/-- Python max(all_files, key=modification_time): the first file attaining
the maximal modification time (max keeps the earliest maximal element). -/
def mostRecentFile (files : List InteractionFile) : Option InteractionFile :=
  match files with
  | [] => none
  | f :: rest => some (rest.foldl (fun best g =>
      if best.modification_time < g.modification_time then g else best) f)

/-- The view-model pushed to the display sink each tick: most recent
interaction, burn rate, and the quota/context window of the recent
interaction's model. -/
structure DashboardView where
  recent_file : Option InteractionFile
  burn_rate : ℚ
  quota : Option ℚ
  context_window : ℕ
deriving Repr, DecidableEq

/-- `LiveMonitor._generate_workflow_dashboard` (live_monitor.py lines
197-238): gathers all files of the workflow, takes the most recent one,
recomputes the workflow burn rate, and resolves quota and context window
from the recent file's model (defaults: no quota, window 200000). -/
def generate_workflow_dashboard (pricing : Pricing) (w : SessionWorkflow) (now : ℚ) :
    DashboardView :=
  match mostRecentFile (allFiles w.all_sessions) with
  | some f =>
    match pricing f.model_id with
    | some mp =>
      ⟨some f, calculate_workflow_output_rate w now, mp.session_quota, mp.context_window⟩
    | none => ⟨some f, calculate_workflow_output_rate w now, none, 200000⟩
  | none => ⟨none, calculate_workflow_output_rate w now, none, 200000⟩

/-- The burn-rate field of the regenerated dashboard is the workflow
burn rate of the workflow it is generated from. -/
theorem dashboard_burn_rate (pricing : Pricing) (w : SessionWorkflow) (now : ℚ) :
    (generate_workflow_dashboard pricing w now).burn_rate
      = calculate_workflow_output_rate w now := by
  unfold generate_workflow_dashboard
  split
  · split <;> rfl
  · rfl

/-- C6 (amended): every tick regenerates and republishes a dashboard; its
source is the freshly loaded head workflow whenever the load is nonempty and
either the id matches or a genuine new workflow is detected; under the
flapping guard, or when the load is empty, the previously tracked workflow's
data is republished instead. -/
theorem republish_each_tick (pricing : Pricing) (now : ℚ) (st : TrackState)
    (sst : SqliteTrackState) (nw : SessionWorkflow) (nd : WorkflowDict)
    (rest : List SessionWorkflow) :
    ((tick st []).published = st.current)
    ∧ (nw.workflow_id = st.current.workflow_id →
        (tick st (nw :: rest)).published = nw ∧
        generate_workflow_dashboard pricing (tick st (nw :: rest)).published now
          = generate_workflow_dashboard pricing nw now)
    ∧ (nw.workflow_id ≠ st.current.workflow_id →
        nw.main_session.session_id ∉ st.tracked →
        (tick st (nw :: rest)).published = nw)
    ∧ (nw.workflow_id ≠ st.current.workflow_id →
        nw.main_session.session_id ∈ st.tracked →
        (tick st (nw :: rest)).published = st.current)
    ∧ ((sqliteTick sst none).published = sst.workflow)
    ∧ (nd.workflow_id = sst.current_workflow_id →
        (sqliteTick sst (some nd)).published = nd)
    ∧ (nd.workflow_id ≠ sst.current_workflow_id →
        (sqliteTick sst (some nd)).published =
          (if nd.workflow_id ∉ sst.tracked then nd else sst.workflow)) := by
  refine ⟨rfl, ?_, ?_, ?_, rfl, ?_, ?_⟩
  · intro h
    have hp : (tick st (nw :: rest)).published = nw := by
      have ht : tick st (nw :: rest) =
          (if sessionIds nw.all_sessions \ st.tracked ≠ ∅ then
            (⟨nw, sessionIds nw.all_sessions, none,
              sessionIds nw.all_sessions \ st.tracked, nw⟩ : TickResult)
          else ⟨nw, st.tracked, none, ∅, nw⟩) := by
        show (if nw.workflow_id ≠ st.current.workflow_id then _ else _) = _
        rw [if_neg (not_not_intro h)]
      rw [ht]
      by_cases hsub : sessionIds nw.all_sessions \ st.tracked = ∅
      · rw [if_neg (not_not_intro hsub)]
      · rw [if_pos hsub]
    exact ⟨hp, by rw [hp]⟩
  · intro h1 h2
    show ((if nw.workflow_id ≠ st.current.workflow_id then _ else _ :
      TickResult)).published = _
    rw [if_pos h1, if_pos h2]
  · intro h1 h2
    show ((if nw.workflow_id ≠ st.current.workflow_id then _ else _ :
      TickResult)).published = _
    rw [if_pos h1, if_neg (not_not_intro h2)]
  · intro h
    have ht : sqliteTick sst (some nd) =
        (if sessionIds nd.all_sessions \ sst.tracked ≠ ∅ then
          (⟨nd, sst.current_workflow_id, sessionIds nd.all_sessions, none,
            sessionIds nd.all_sessions \ sst.tracked, nd⟩ : SqliteTickResult)
        else ⟨nd, sst.current_workflow_id, sst.tracked, none, ∅, nd⟩) := by
      show (if nd.workflow_id ≠ sst.current_workflow_id then _ else _) = _
      rw [if_neg (not_not_intro h)]
    rw [ht]
    by_cases hsub : sessionIds nd.all_sessions \ sst.tracked = ∅
    · rw [if_neg (not_not_intro hsub)]
    · rw [if_pos hsub]
  · intro h1
    by_cases h2 : nd.workflow_id ∉ sst.tracked
    · rw [if_pos h2]
      show ((if nd.workflow_id ≠ sst.current_workflow_id then _ else _ :
        SqliteTickResult)).published = _
      rw [if_pos h1, if_pos h2]
    · rw [if_neg h2]
      show ((if nd.workflow_id ≠ sst.current_workflow_id then _ else _ :
        SqliteTickResult)).published = _
      rw [if_pos h1, if_neg h2]

/-- An interaction of workflow A6: 100 output tokens over 2000 ms, modified
at t = 1000 s (burn rate 50 tokens/s). -/
def fileA6 : InteractionFile :=
  { file_name := "a6"
    session_id := "A6"
    model_id := "m"
    tokens := { input := 0, output := 100, cache_write := 0, cache_read := 0 }
    time_data := some { created := none, duration_ms := some 2000 }
    modification_time := 1000 }

/-- The session of `fileA6`. -/
def sessA6 : SessionData :=
  { session_id := "A6", parent_id := none, files := [fileA6]
    start_time := some 1000, end_time := some 1000 }

/-- An interaction of workflow B6: 1000 output tokens over 1000 ms, modified
at t = 1000 s (burn rate 1000 tokens/s). -/
def fileB6 : InteractionFile :=
  { file_name := "b6"
    session_id := "B6"
    model_id := "m"
    tokens := { input := 0, output := 1000, cache_write := 0, cache_read := 0 }
    time_data := some { created := none, duration_ms := some 1000 }
    modification_time := 1000 }

/-- The session of `fileB6`. -/
def sessB6 : SessionData :=
  { session_id := "B6", parent_id := some "A6", files := [fileB6]
    start_time := some 1000, end_time := some 1000 }

/-- The tracked workflow A6 (single session). -/
def wfA6 : SessionWorkflow := { main_session := sessA6, sub_agents := [] }

/-- The freshly loaded head workflow B6, whose id is already tracked. -/
def nwB6 : SessionWorkflow := { main_session := sessB6, sub_agents := [] }

/-- Tracking A6 with tracked ids A6 and B6. -/
def stC6 : TrackState := { current := wfA6, tracked := {"A6", "B6"} }

/-- C6 counterexample: on a flapping-guard tick the republished dashboard is
generated from the previously tracked workflow, not from the data loaded on
that tick — here the two dashboards differ (burn rate 50 versus 1000). -/
theorem stale_dashboard_counterexample :
    nwB6.workflow_id ≠ stC6.current.workflow_id ∧
    nwB6.main_session.session_id ∈ stC6.tracked ∧
    generate_workflow_dashboard emptyPricing (tick stC6 [nwB6]).published 1000
      ≠ generate_workflow_dashboard emptyPricing nwB6 1000 := by
  refine ⟨by decide, by decide, ?_⟩
  have hp : (tick stC6 [nwB6]).published = stC6.current := by decide
  rw [hp]
  intro h
  have hbr := congrArg DashboardView.burn_rate h
  rw [dashboard_burn_rate, dashboard_burn_rate] at hbr
  have ha : calculate_workflow_output_rate stC6.current 1000 = 50 := by
    norm_num [calculate_workflow_output_rate, allFiles, stC6, wfA6, sessA6, fileA6,
      SessionWorkflow.all_sessions, List.filter_cons, total_duration_ms,
      total_output_tokens, durationContribution]
  have hb : calculate_workflow_output_rate nwB6 1000 = 1000 := by
    norm_num [calculate_workflow_output_rate, allFiles, nwB6, sessB6, fileB6,
      SessionWorkflow.all_sessions, List.filter_cons, total_duration_ms,
      total_output_tokens, durationContribution]
  rw [ha, hb] at hbr
  norm_num at hbr

/-- C6 witness: on a stable-identity tick the republished dashboard is the
one generated from the freshly loaded workflow. -/
theorem republish_each_tick_witness :
    (tick stC6 [wfA6]).published = wfA6 ∧
    generate_workflow_dashboard emptyPricing (tick stC6 [wfA6]).published 1000
      = generate_workflow_dashboard emptyPricing wfA6 1000 := by
  have h := republish_each_tick emptyPricing 1000 stC6 sstAB wfA6 ndB []
  exact h.2.1 rfl

end OCMonitor
